import Mathlib

/-!
Shallow embedding of the crawl-and-download engine of honey-dl
(src/honey-dl.py) and verification of its specification.

The program is a paginated image-gallery crawler.  We embed:

* the retrying HTTP fetch primitive (function get_content, lines 56-81),
  with the network abstracted as an oracle giving the result of each
  HTTP GET attempt;
* the main crawl loop (function main, lines 183-231), with the page
  fetch, the HTML parser and the per-item download results abstracted
  as oracles, as a step function plus a fuel-indexed runner;
* the pre-loop part of main (lines 149-181): filesystem side effects,
  navigation-parameter resolution from the seed URL, and the
  page-range validation, over a faithful model of the Python string
  operations used (urlparse, str.find, str.replace, indexing,
  re.search of the fixed pattern).
-/

/-- Result of one HTTP GET attempt (requests.get): a response with a
status code and body bytes, a Timeout exception, or another
RequestException. -/
inductive HttpResult where
  | response (code : Nat) (body : List Nat)
  | timeout
  | reqError
deriving DecidableEq

/-- Python value returned by get_content: body bytes on a 200 response,
the literal False on a non-200 response or on exhausted retries, and
None when the while loop never runs (falling off the end of the
function). -/
inductive PyReturn where
  | bytes (b : List Nat)
  | pyFalse
  | pyNone
deriving DecidableEq

/-- Python truthiness of a get_content result: bytes are truthy iff
nonempty; False and None are falsy. -/
def truthy : PyReturn → Bool
  | .bytes b => !b.isEmpty
  | .pyFalse => false
  | .pyNone => false

/-- Body bytes carried by a get_content result (empty for failures). -/
def bytesOf : PyReturn → List Nat
  | .bytes b => b
  | .pyFalse => []
  | .pyNone => []

/-- The while loop of get_content (lines 61-81).  The loop variable i
starts at 1 and increases by 1 on each retried attempt; the loop body
runs only while i is at most retries, so the loop body executes at most
retries times and the structural fuel argument (instantiated with
retries at the call site) can never be exhausted while the loop
condition holds; the fuel-zero branch duplicates the loop-condition-
false result.  The second component of the result is the number of GET
attempts performed. -/
def getContentLoop (attempt : Nat → HttpResult) (retries : Nat) :
    Nat → Nat → PyReturn × Nat
  | i, 0 => (.pyNone, i - 1)
  | i, fuel + 1 =>
    if i ≤ retries then
      match attempt i with
      | .response code body =>
          if code = 200 then (.bytes body, i) else (.pyFalse, i)
      | .timeout =>
          if i = retries then (.pyFalse, i)
          else getContentLoop attempt retries (i + 1) fuel
      | .reqError =>
          if i = retries then (.pyFalse, i)
          else getContentLoop attempt retries (i + 1) fuel
    else (.pyNone, i - 1)

/-- get_content (lines 56-81): repeatedly issue GET attempts, where the
k-th attempt's result is given by the oracle.  Returns the Python value
the function returns together with the number of attempts performed. -/
def get_content (attempt : Nat → HttpResult) (retries : Nat) :
    PyReturn × Nat :=
  getContentLoop attempt retries 1 retries

/-- One img element found on a page: its alt attribute (the raw date
string fed to strptime) and whether download_image reported the file as
already existing (the second boolean of its result, the only one the
main loop inspects). -/
structure Img where
  alt : String
  old : Bool
deriving DecidableEq

/-- Models Python str.split with a one-character separator (the only
separators this program splits on): the maximal runs between
occurrences of the separator, empty runs included. -/
def splitOnChar (sep : Char) : List Char → List (List Char)
  | [] => [[]]
  | c :: rest =>
    let r := splitOnChar sep rest
    if c = sep then [] :: r
    else
      match r with
      | [] => [[c]]
      | h :: t => (c :: h) :: t

/-- Models Python int() on the strings this program feeds it: a
nonempty all-digit character list yields its value; anything else
raises a ValueError, returned as none. -/
def listToNat? (cs : List Char) : Option Nat :=
  if cs.isEmpty || !cs.all Char.isDigit then none
  else some (cs.foldl (fun n c => n * 10 + (c.toNat - 48)) 0)

/-- Numeric value of a decimal digit character. -/
def digitVal (c : Char) : Nat :=
  c.toNat - 48

/-- The day field of CPython strptime's %d directive, whose matching
group accepts a two-digit value 01-31, a bare digit 1-9, or a
blank-padded digit 1-9. -/
def matchDayField (cs : List Char) : Option Nat :=
  match cs with
  | [a] => if a.isDigit && a != '0' then some (digitVal a) else none
  | [' ', a] => if a.isDigit && a != '0' then some (digitVal a) else none
  | [a, b] =>
    if a.isDigit && b.isDigit then
      let v := 10 * digitVal a + digitVal b
      if 1 ≤ v ∧ v ≤ 31 then some v else none
    else none
  | _ => none

/-- The month field of CPython strptime's %m directive, whose matching
group accepts a two-digit value 01-12 or a bare digit 1-9 (no blank
padding). -/
def matchMonthField (cs : List Char) : Option Nat :=
  match cs with
  | [a] => if a.isDigit && a != '0' then some (digitVal a) else none
  | [a, b] =>
    if a.isDigit && b.isDigit then
      let v := 10 * digitVal a + digitVal b
      if 1 ≤ v ∧ v ≤ 12 then some v else none
    else none
  | _ => none

/-- The year field of CPython strptime's %Y directive, whose matching
group requires exactly four digits. -/
def matchYearField (cs : List Char) : Option Nat :=
  match cs with
  | [a, b, c, d] =>
    if a.isDigit && b.isDigit && c.isDigit && d.isDigit then
      some (digitVal a * 1000 + digitVal b * 100 + digitVal c * 10 +
        digitVal d)
    else none
  | _ => none

/-- Gregorian leap-year rule, as used by the datetime module. -/
def isLeapYear (y : Nat) : Bool :=
  y % 4 == 0 && (y % 100 != 0 || y % 400 == 0)

/-- Number of days of a month, as validated by the datetime
constructor. -/
def daysInMonth (m y : Nat) : Nat :=
  if m = 2 then (if isLeapYear y then 29 else 28)
  else if m = 4 ∨ m = 6 ∨ m = 9 ∨ m = 11 then 30
  else 31

/-- Models CPython datetime.strptime for the fixed format string
"%d-%m-%Y": the whole input must be the day, month and year fields
separated by single dashes (the fields contain no dash, so this agrees
with the compiled format regex plus the full-length check), and the
resulting date must be constructible: the year at least 1 (year 0000
is below MINYEAR) and the day within the month's length, leap years
accounted for; any violation raises a ValueError, returned as none. -/
def strptimeDMY (s : String) : Option (Nat × Nat × Nat) :=
  match splitOnChar '-' s.data with
  | [d, m, y] =>
    match matchDayField d, matchMonthField m, matchYearField y with
    | some dv, some mv, some yv =>
      if 1 ≤ yv ∧ dv ≤ daysInMonth mv yv then some (dv, mv, yv)
      else none
    | _, _, _ => none
  | _ => none

/-- The task-submission loop over the imgs of a page (lines 203-220):
each img's alt attribute is parsed with strptime before its download
task is submitted.  Returns the total number of submitted tasks, or,
when some date string fails to parse (an uncaught ValueError), the
number of tasks submitted before the failing img. -/
def submitImgs : List Img → Nat → Except Nat Nat
  | [], n => .ok n
  | img :: rest, n =>
    match strptimeDMY img.alt with
    | some _ => submitImgs rest (n + 1)
    | none => .error n

/-- All imgs of a page parse their date successfully. -/
def datesOk (l : List Img) : Bool :=
  l.all fun i => (strptimeDMY i.alt).isSome

/-- Every img of a page was reported as already existing (outcome
Skipped); vacuously true for a page with no imgs. -/
def allOld (l : List Img) : Bool :=
  l.all fun i => i.old

/-- Mutable state of the crawl loop: the current page number, the
old_pages counter, plus two observers: the list of page numbers for
which a page fetch was issued, in order, and the total number of
download tasks submitted. -/
structure LoopState where
  page : Nat
  old_pages : Nat
  fetched : List Nat
  dispatched : Nat
deriving DecidableEq

/-- Why the crawl loop stopped: the while condition became false
(page-range exhausted or break-number reached), the page fetch
returned a falsy value (the break at line 196), or an uncaught
ValueError from strptime aborted the whole run. -/
inductive StopCause where
  | condExit
  | fetchFail
  | dateCrash
deriving DecidableEq

/-- Result of one iteration attempt of the crawl loop. -/
inductive StepOut where
  | next (s : LoopState)
  | stop (c : StopCause) (s : LoopState)
deriving DecidableEq

/-- The while condition of the crawl loop (lines 183-185):
(page <= page_end or page_end == 0) and
(old_pages < break_number or break_number == 0). -/
def loopCond (page_end break_number : Nat) (s : LoopState) : Bool :=
  (decide (s.page ≤ page_end) || decide (page_end = 0)) &&
  (decide (s.old_pages < break_number) || decide (break_number = 0))

/-- One iteration of the crawl loop (lines 183-229).  fetchPage gives
the value get_content returns for each page number's navigated URL;
parse gives the imgs BeautifulSoup finds in the fetched bytes.  If the
while condition fails the loop exits; if the fetched content is falsy
the loop breaks (line 196); if some img's date string fails to parse
the run aborts with the tasks submitted so far recorded; otherwise all
tasks are submitted, old_pages is incremented exactly when every task
reported an already-existing file (old_files == len(tasks), vacuously
for a page with no imgs, and never reset otherwise), and the page
number advances. -/
def crawlStep (fetchPage : Nat → PyReturn) (parse : List Nat → List Img)
    (page_end break_number : Nat) (s : LoopState) : StepOut :=
  if loopCond page_end break_number s then
    if truthy (fetchPage s.page) then
      match submitImgs (parse (bytesOf (fetchPage s.page))) 0 with
      | .error k =>
          .stop .dateCrash
            ⟨s.page, s.old_pages, s.fetched ++ [s.page], s.dispatched + k⟩
      | .ok n =>
          .next
            ⟨s.page + 1,
             if ((parse (bytesOf (fetchPage s.page))).filter
                   (fun i => i.old)).length
                 = (parse (bytesOf (fetchPage s.page))).length
             then s.old_pages + 1 else s.old_pages,
             s.fetched ++ [s.page],
             s.dispatched + n⟩
    else
      .stop .fetchFail
        ⟨s.page, s.old_pages, s.fetched ++ [s.page], s.dispatched⟩
  else .stop .condExit s

/-- Fuel-indexed runner of the crawl loop; none means the fuel did not
suffice to reach a loop exit. -/
def crawlRun (fetchPage : Nat → PyReturn) (parse : List Nat → List Img)
    (page_end break_number : Nat) : Nat → LoopState →
    Option (StopCause × LoopState)
  | 0, _ => none
  | fuel + 1, s =>
    match crawlStep fetchPage parse page_end break_number s with
    | .stop c s' => some (c, s')
    | .next s' => crawlRun fetchPage parse page_end break_number fuel s'

/-- The loop state at crawl start (lines 180-181): page = page_start,
old_pages = 0, nothing fetched or dispatched yet. -/
def initState (page_start : Nat) : LoopState :=
  ⟨page_start, 0, [], 0⟩

/-- What the program reports after the loop ends: the unconditional
completion message at line 231 for every loop exit, and no completion
message when an uncaught exception aborted the run. -/
def finalReport : StopCause → Option String
  | .dateCrash => none
  | .condExit => some "✅ Downloading completed!"
  | .fetchFail => some "✅ Downloading completed!"

/-- The navigated URL built each iteration (line 186). -/
def navigatedUrl (url navigator : String) (page : Nat) : String :=
  url ++ "&" ++ navigator ++ "=" ++ toString page

/-- Split a character list at the first occurrence of a character:
the part before it, and the part after it when it occurs. -/
def splitFirst (c : Char) : List Char → List Char × Option (List Char)
  | [] => ([], none)
  | x :: xs =>
    if x = c then ([], some xs)
    else
      let r := splitFirst c xs
      (x :: r.1, r.2)

/-- Models urllib.parse.urlparse(url).query: the fragment (everything
from the first hash sign on) is removed, and the query is what follows
the first question mark of the remainder (empty when there is none). -/
def urlparseQuery (url : String) : String :=
  let nofrag := (splitFirst '#' url.data).1
  match (splitFirst '?' nofrag).2 with
  | some q => ⟨q⟩
  | none => ""

/-- Characters allowed in a URL scheme by urllib.parse. -/
def isSchemeChar (c : Char) : Bool :=
  c.isAlphanum || c = '+' || c = '-' || c = '.'

/-- Models urllib.parse.urlparse(url).netloc: when the part before the
first colon is a nonempty run of scheme characters it is stripped
together with the colon; then, when the remainder starts with two
slashes, the netloc is what follows them up to the first slash,
question mark or hash sign. -/
def urlparseNetloc (url : String) : String :=
  let cs := url.data
  let rest :=
    match splitFirst ':' cs with
    | (before, some after) =>
        if !before.isEmpty && before.all isSchemeChar then after else cs
    | (_, none) => cs
  match rest with
  | '/' :: '/' :: tail =>
      ⟨tail.takeWhile fun c => c ≠ '/' && c ≠ '?' && c ≠ '#'⟩
  | _ => ""

/-- Models Python str.find for a substring: the least index at which
the substring occurs, or -1 when it does not occur. -/
def pyFind : List Char → List Char → Nat → Int
  | [], sub, i => if sub.isPrefixOf ([] : List Char) then (i : Int) else -1
  | c :: t, sub, i =>
    if sub.isPrefixOf (c :: t) then (i : Int) else pyFind t sub (i + 1)

/-- Models Python string indexing s[i]: a negative index counts from
the end; an index out of range is an IndexError, returned as none. -/
def pyCharAt (cs : List Char) (i : Int) : Option Char :=
  let j : Int := if i < 0 then i + cs.length else i
  if h : 0 ≤ j ∧ j < cs.length then
    some (cs.get ⟨j.toNat, by omega⟩)
  else none

/-- Models Python str.replace(target, "") for a nonempty target:
every non-overlapping occurrence, scanned left to right, is removed.
The fuel is instantiated with the length of the scanned list, which a
scan consuming at least one character per step can never exhaust; the
fuel-zero branch returns the remainder unchanged. -/
def removeAllAux (target : List Char) : Nat → List Char → List Char
  | _, [] => []
  | 0, cs => cs
  | fuel + 1, c :: rest =>
    if !target.isEmpty && target.isPrefixOf (c :: rest) then
      removeAllAux target fuel (rest.drop (target.length - 1))
    else c :: removeAllAux target fuel rest

/-- Models Python url.replace(target, "") on strings. -/
def pyRemoveAll (s target : String) : String :=
  ⟨removeAllAux target.data s.data.length s.data⟩

/-- Matches the tail of the fixed pattern after the navigator name:
an equals sign, one or more digits, then either an ampersand or the
end of the string (the (&|$) alternative of the pattern; by
maximality of a greedy digit run no backtracking can succeed
otherwise). -/
def matchNumTail : List Char → Bool
  | '=' :: rest =>
    let ds := rest.takeWhile Char.isDigit
    let rest' := rest.dropWhile Char.isDigit
    !ds.isEmpty && (rest'.isEmpty || rest'.headD ' ' = '&')
  | _ => false

/-- Does the fixed pattern match at the head of the list: a question
mark, ampersand or hash sign, then the navigator name, then the
numeric tail. -/
def matchNavAt (nav : List Char) : List Char → Bool
  | [] => false
  | c :: rest =>
    (c = '?' || c = '&' || c = '#') && nav.isPrefixOf rest &&
      matchNumTail (rest.drop nav.length)

/-- Models re.search of the pattern (\?|&|#)NAV=(\d+)(&|$) over the
URL (line 159): some suffix of the URL matches at its head. -/
def searchNav (nav : List Char) : List Char → Bool
  | [] => false
  | c :: rest => matchNavAt nav (c :: rest) || searchNav nav rest


/-- The URL-cleaning step (lines 165-171).  Inside a try block the
program builds the string to remove: the parameter, preceded by an
ampersand when the character before its first occurrence is one, and
followed by an ampersand exactly when a character exists right after
it (a one-character string is always truthy; when the index is out of
range the IndexError is caught and the parameter is removed without a
trailing ampersand).  When even the character before the occurrence
cannot be read, the handler itself raises, so none is returned. -/
def resolveReplace (url param : String) : Option String :=
  let find := pyFind url.data param.data 0
  match pyCharAt url.data (find - 1) with
  | none => none
  | some prevc =>
    let pref := if prevc = '&' then "&" else ""
    match pyCharAt url.data (find + param.length) with
    | some _ => some (pyRemoveAll url (pref ++ param ++ "&"))
    | none => some (pyRemoveAll url (pref ++ param))

/-- Navigation-parameter resolution (lines 158-174).  When the fixed
pattern matches the URL, the first query parameter whose name starts
with the navigator is taken, its value after the last equals sign
becomes the page start, and the parameter is stripped from the URL;
a failure at any of these steps (no such query parameter, a
non-numeric value, an unreadable neighbour character) is an uncaught
exception, returned as none.  Otherwise the URL is unchanged and the
configured page start is used, 1 standing for the 0 sentinel. -/
def resolveNavigator (navigator url : String) (page_start : Nat) :
    Option (Nat × String) :=
  if searchNav navigator.data url.data then
    match (splitOnChar '&' (urlparseQuery url).data).filter
        (fun p => navigator.data.isPrefixOf p) with
    | [] => none
    | param :: _ =>
      match listToNat? ((splitOnChar '=' param).getLastD []) with
      | none => none
      | some ps =>
        match resolveReplace url ⟨param⟩ with
        | none => none
        | some url' => some (ps, url')
  else
    some (if page_start = 0 then 1 else page_start, url)

/-- An observable side effect of the pre-loop part of main. -/
inductive Effect where
  | makedirs (path : String)
  | writeFile (path : String) (content : String)
  | httpGet (url : String)
deriving DecidableEq

/-- How the pre-loop part of main ends: fall through into the crawl
loop with the resolved page start and cleaned URL, exit(1) from the
page-range check (line 178), or an uncaught exception during
navigation-parameter resolution. -/
inductive PreludeOutcome where
  | proceed (page_start : Nat) (url : String)
  | exitError (code : Nat)
  | raised
deriving DecidableEq

/-- The pre-loop part of main (lines 149-181): create the directory
named after the URL's host, write the .gitignore marker file into it,
resolve the navigation parameter, then validate the page range and
exit(1) when a bounded page_end is below the resolved page_start.
The returned list is the side effects performed, in order; no HTTP
request is issued before the loop. -/
def mainPrelude (navigator url : String) (page_start page_end : Nat) :
    List Effect × PreludeOutcome :=
  let domain := urlparseNetloc url
  let effs : List Effect :=
    [.makedirs domain,
     .writeFile (domain ++ "/.gitignore")
       "# Automatically created by honey-dl\n*"]
  match resolveNavigator navigator url page_start with
  | none => (effs, .raised)
  | some (ps, url') =>
    if page_end ≠ 0 ∧ page_end < ps then (effs, .exitError 1)
    else (effs, .proceed ps url')

/-- When every attempt times out, the fetch loop runs through all
remaining attempts and fails reporting retries attempts. -/
theorem getContentLoop_timeout (attempt : Nat → HttpResult) (retries : Nat)
    (h : ∀ k, attempt k = HttpResult.timeout) :
    ∀ fuel i, i ≤ retries → retries < i + fuel →
      getContentLoop attempt retries i fuel = (.pyFalse, retries) := by
  intro fuel
  induction fuel with
  | zero => intro i h1 h2; omega
  | succ fuel ih =>
    intro i h1 h2
    simp only [getContentLoop, h i]
    rw [if_pos h1]
    by_cases he : i = retries
    · subst he; simp
    · rw [if_neg he]
      exact ih (i + 1) (by omega) (by omega)

/-- When attempts before the k-th time out and the k-th returns a 200
response, the fetch loop stops at attempt k with the body. -/
theorem getContentLoop_success (attempt : Nat → HttpResult)
    (retries k : Nat) (body : List Nat) (hk2 : k ≤ retries)
    (hto : ∀ j, 1 ≤ j → j < k → attempt j = HttpResult.timeout)
    (hk : attempt k = HttpResult.response 200 body) :
    ∀ fuel i, 1 ≤ i → i ≤ k → k < i + fuel →
      getContentLoop attempt retries i fuel = (.bytes body, k) := by
  intro fuel
  induction fuel with
  | zero => intro i h1 h2 h3; omega
  | succ fuel ih =>
    intro i h1 h2 h3
    by_cases he : i = k
    · subst he
      simp only [getContentLoop, hk]
      rw [if_pos (by omega)]
      simp
    · have hik : i < k := by omega
      simp only [getContentLoop, hto i h1 hik]
      rw [if_pos (by omega), if_neg (by omega : ¬ i = retries)]
      exact ih (i + 1) (by omega) (by omega) (by omega)

/-- Claim C1 counterexample: with retries = 1 and every attempt timing
out, get_content performs exactly 1 GET attempt and fails, not the
1 + 1 = 2 attempts the claim requires. -/
theorem c1_counterexample :
    get_content (fun _ => HttpResult.timeout) 1 = (.pyFalse, 1) ∧
    (get_content (fun _ => HttpResult.timeout) 1).2 ≠ 1 + 1 := by
  constructor
  · rfl
  · decide

/-- Claim C1 amended: for every URL oracle and retries value N at least
1, when every attempt times out get_content performs exactly N GET
attempts (not N + 1) and returns a failure; and when attempts before
the k-th time out and attempt k at most N succeeds with status 200,
exactly k attempts occur and the body bytes are returned. -/
theorem c1_amended (attempt : Nat → HttpResult) (N : Nat) (hN : 1 ≤ N) :
    ((∀ k, attempt k = HttpResult.timeout) →
      get_content attempt N = (.pyFalse, N)) ∧
    (∀ k body, 1 ≤ k → k ≤ N →
      (∀ j, 1 ≤ j → j < k → attempt j = HttpResult.timeout) →
      attempt k = HttpResult.response 200 body →
      get_content attempt N = (.bytes body, k)) := by
  constructor
  · intro h
    exact getContentLoop_timeout attempt N h N 1 hN (by omega)
  · intro k body hk1 hk2 hto hk
    exact getContentLoop_success attempt N k body hk2 hto hk N 1
      (by omega) hk1 (by omega)

/-- Witness for the amended claim C1: two initial timeouts would be
retried, but a 200 response on attempt 2 of 3 stops the loop there. -/
theorem c1_amended_witness :
    get_content
        (fun j => if j = 2 then HttpResult.response 200 [5]
                  else HttpResult.timeout) 3
      = (.bytes [5], 2) :=
  (c1_amended
      (fun j => if j = 2 then HttpResult.response 200 [5]
                else HttpResult.timeout) 3 (by decide)).2
    2 [5] (by decide) (by decide)
    (fun j h1 h2 => by
      have hj : j = 1 := by omega
      subst hj
      rfl)
    rfl

/-- Claim C8: when the first GET attempt returns any status other than
200, get_content returns a failure immediately after that single
attempt, for every configured retries value admitting an attempt. -/
theorem c8_non200 (attempt : Nat → HttpResult) (retries code : Nat)
    (body : List Nat) (hr : 1 ≤ retries)
    (h1 : attempt 1 = HttpResult.response code body) (hc : code ≠ 200) :
    get_content attempt retries = (.pyFalse, 1) := by
  obtain ⟨f, rfl⟩ : ∃ f, retries = f + 1 := ⟨retries - 1, by omega⟩
  unfold get_content
  simp only [getContentLoop, h1]
  rw [if_pos (by omega), if_neg hc]

/-- Witness for claim C8: a 404 on the first attempt fails at once even
with retries = 5. -/
theorem c8_witness :
    get_content (fun _ => HttpResult.response 404 []) 5 = (.pyFalse, 1) :=
  c8_non200 (fun _ => HttpResult.response 404 []) 5 404 []
    (by decide) rfl (by decide)

/-- When the while condition fails the loop exits unchanged. -/
theorem crawlStep_condFalse (fp : Nat → PyReturn) (pr : List Nat → List Img)
    (pe bn : Nat) (s : LoopState) (hc : loopCond pe bn s = false) :
    crawlStep fp pr pe bn s = .stop .condExit s := by
  simp [crawlStep, hc]

/-- When the page fetch result is falsy the loop breaks after fetching
that page. -/
theorem crawlStep_fetchFail (fp : Nat → PyReturn) (pr : List Nat → List Img)
    (pe bn : Nat) (s : LoopState) (hc : loopCond pe bn s = true)
    (hf : truthy (fp s.page) = false) :
    crawlStep fp pr pe bn s =
      .stop .fetchFail
        ⟨s.page, s.old_pages, s.fetched ++ [s.page], s.dispatched⟩ := by
  simp [crawlStep, hc, hf]

/-- When a date string fails to parse the run aborts with the tasks
submitted before it recorded. -/
theorem crawlStep_crash (fp : Nat → PyReturn) (pr : List Nat → List Img)
    (pe bn : Nat) (s : LoopState) (k : Nat)
    (hc : loopCond pe bn s = true) (hf : truthy (fp s.page) = true)
    (hsub : submitImgs (pr (bytesOf (fp s.page))) 0 = .error k) :
    crawlStep fp pr pe bn s =
      .stop .dateCrash
        ⟨s.page, s.old_pages, s.fetched ++ [s.page], s.dispatched + k⟩ := by
  simp [crawlStep, hc, hf, hsub]

/-- When the page is fetched and every date parses, the loop advances,
incrementing old_pages exactly when every img is already present. -/
theorem crawlStep_next (fp : Nat → PyReturn) (pr : List Nat → List Img)
    (pe bn : Nat) (s : LoopState) (n : Nat)
    (hc : loopCond pe bn s = true) (hf : truthy (fp s.page) = true)
    (hsub : submitImgs (pr (bytesOf (fp s.page))) 0 = .ok n) :
    crawlStep fp pr pe bn s =
      .next ⟨s.page + 1,
             if ((pr (bytesOf (fp s.page))).filter
                   (fun i => i.old)).length
                 = (pr (bytesOf (fp s.page))).length
             then s.old_pages + 1 else s.old_pages,
             s.fetched ++ [s.page],
             s.dispatched + n⟩ := by
  simp [crawlStep, hc, hf, hsub]

/-- A list of imgs whose dates all parse is submitted in full. -/
theorem submitImgs_ok :
    ∀ (l : List Img) (n : Nat), datesOk l = true →
      submitImgs l n = .ok (n + l.length) := by
  intro l
  induction l with
  | nil => intro n _; simp [submitImgs]
  | cons a t ih =>
    intro n h
    rw [datesOk, List.all_cons, Bool.and_eq_true] at h
    obtain ⟨h1, h2⟩ := h
    obtain ⟨d, hd⟩ := Option.isSome_iff_exists.mp h1
    simp only [submitImgs, hd]
    rw [ih (n + 1) h2]
    congr 1
    simp [List.length_cons]
    omega

/-- Submission stops at the first img whose date fails to parse,
after submitting exactly the imgs before it. -/
theorem submitImgs_error :
    ∀ (pre : List Img) (bad : Img) (post : List Img) (n : Nat),
      datesOk pre = true → strptimeDMY bad.alt = none →
      submitImgs (pre ++ bad :: post) n = .error (n + pre.length) := by
  intro pre
  induction pre with
  | nil => intro bad post n _ hbad; simp [submitImgs, hbad]
  | cons a t ih =>
    intro bad post n h hbad
    rw [datesOk, List.all_cons, Bool.and_eq_true] at h
    obtain ⟨h1, h2⟩ := h
    obtain ⟨d, hd⟩ := Option.isSome_iff_exists.mp h1
    simp only [List.cons_append, submitImgs, hd, List.append_eq]
    rw [ih bad post (n + 1) h2 hbad]
    congr 1
    simp [List.length_cons]
    omega

/-- The number of imgs reported as already existing equals the page's
img count exactly when every img is already existing. -/
theorem length_filter_old (l : List Img) :
    ((l.filter fun i => i.old).length = l.length) ↔ allOld l = true := by
  induction l with
  | nil => simp [allOld]
  | cons a t ih =>
    by_cases h : a.old = true
    · rw [List.filter_cons_of_pos (by simpa using h)]
      simp only [List.length_cons, Nat.add_right_cancel_iff]
      rw [ih]
      simp [allOld, List.all_cons, h]
    · have h' : a.old = false := by simpa using h
      rw [List.filter_cons_of_neg (by simp [h'])]
      constructor
      · intro hlen
        exfalso
        have hle := List.length_filter_le (fun i => i.old) t
        simp only [List.length_cons] at hlen
        omega
      · intro hall
        rw [allOld, List.all_cons, h'] at hall
        simp at hall

/-- Claim C10: with retries = 0 the while loop of get_content never
runs, so zero GET attempts occur and the Python value None is returned;
consequently the first page fetch of a crawl run with retries = 0 is
falsy, the loop breaks at once having dispatched nothing, and the crawl
ends after fetching only the first page. -/
theorem c10_zero_retries (attempt : Nat → HttpResult)
    (fetch : Nat → Nat → HttpResult) (parse : List Nat → List Img)
    (page_end break_number page_start fuel : Nat)
    (hfuel : 1 ≤ fuel) (hstart : page_start ≤ page_end ∨ page_end = 0) :
    get_content attempt 0 = (.pyNone, 0) ∧
    crawlRun (fun p => (get_content (fetch p) 0).1) parse
        page_end break_number fuel (initState page_start)
      = some (.fetchFail, ⟨page_start, 0, [page_start], 0⟩) := by
  constructor
  · rfl
  · obtain ⟨f, rfl⟩ : ∃ f, fuel = f + 1 := ⟨fuel - 1, by omega⟩
    have hc : loopCond page_end break_number (initState page_start) = true := by
      rw [loopCond, Bool.and_eq_true, Bool.or_eq_true, Bool.or_eq_true]
      constructor
      · rcases hstart with h | h
        · exact Or.inl (by simpa [initState] using h)
        · exact Or.inr (by simpa using h)
      · rcases Nat.eq_zero_or_pos break_number with h | h
        · exact Or.inr (by simpa using h)
        · exact Or.inl (by simpa [initState] using h)
    have hf : truthy ((fun p => (get_content (fetch p) 0).1)
        (initState page_start).page) = false := rfl
    simp only [crawlRun,
      crawlStep_fetchFail (fun p => (get_content (fetch p) 0).1) parse
        page_end break_number (initState page_start) hc hf]
    simp [initState]

/-- Witness for claim C10: with retries = 0 nothing is attempted and the
crawl stops after the very first page fetch with nothing dispatched. -/
theorem c10_witness :
    get_content (fun _ => HttpResult.timeout) 0 = (.pyNone, 0) ∧
    crawlRun (fun p => (get_content ((fun _ _ => HttpResult.timeout) p) 0).1)
        (fun _ => ([] : List Img)) 0 1 1 (initState 1)
      = some (.fetchFail, ⟨1, 0, [1], 0⟩) :=
  c10_zero_retries (fun _ => HttpResult.timeout) (fun _ _ => HttpResult.timeout)
    (fun _ => ([] : List Img)) 0 1 1 1 (by decide) (Or.inr rfl)

/-- Claim C2 counterexample: page 1 has its only item already present,
so the counter becomes 1; page 2 downloads a new item, after which the
claim requires the counter to be reset to 0, but it stays 1. -/
theorem c2_counterexample :
    crawlRun (fun p => PyReturn.bytes [p])
        (fun b => if b = [1] then [⟨"01-01-2020", true⟩]
                  else [⟨"01-01-2020", false⟩])
        2 0 3 (initState 1)
      = some (.condExit, ⟨3, 1, [1, 2], 2⟩) ∧
    (⟨3, 1, [1, 2], 2⟩ : LoopState).old_pages ≠ 0 := by
  constructor
  · decide
  · decide

/-- Claim C2 amended: after a successfully fetched and fully submitted
page, the old_pages counter is incremented exactly when every item of
the page was reported as already existing (vacuously so for a page with
no items); after any other page it is left unchanged, never reset
to 0. -/
theorem c2_amended (fp : Nat → PyReturn) (pr : List Nat → List Img)
    (pe bn : Nat) (s : LoopState)
    (hc : loopCond pe bn s = true)
    (hf : truthy (fp s.page) = true)
    (hd : datesOk (pr (bytesOf (fp s.page))) = true) :
    crawlStep fp pr pe bn s =
      .next ⟨s.page + 1,
             if allOld (pr (bytesOf (fp s.page))) then s.old_pages + 1
             else s.old_pages,
             s.fetched ++ [s.page],
             s.dispatched + (pr (bytesOf (fp s.page))).length⟩ := by
  have hsub := submitImgs_ok (pr (bytesOf (fp s.page))) 0 hd
  rw [Nat.zero_add] at hsub
  have hiff := length_filter_old (pr (bytesOf (fp s.page)))
  by_cases ha : allOld (pr (bytesOf (fp s.page))) = true
  · rw [crawlStep_next fp pr pe bn s _ hc hf hsub,
      if_pos (hiff.mpr ha), if_pos (by simp [ha])]
  · rw [crawlStep_next fp pr pe bn s _ hc hf hsub,
      if_neg (fun hlen => ha (hiff.mp hlen)), if_neg (by simpa using ha)]

/-- Witness for the amended claim C2: a page whose single item is new
leaves the counter at 0 and advances. -/
theorem c2_amended_witness :
    crawlStep (fun _ => PyReturn.bytes [1])
        (fun _ => [⟨"01-01-2020", false⟩]) 0 0 (initState 1)
      = .next ⟨2, 0, [1], 1⟩ :=
  c2_amended (fun _ => PyReturn.bytes [1])
    (fun _ => [⟨"01-01-2020", false⟩]) 0 0 (initState 1)
    (by decide) rfl (by decide)

/-- Claim C3 counterexample: with break-number disabled (0), page 1 is
fetched successfully and yields zero items, yet the crawl does not
terminate there: page 2 is fetched as well, and the run ends only
through the bounded page range, with the ordinary completion exit. -/
theorem c3_counterexample :
    crawlRun (fun _ => PyReturn.bytes [7]) (fun _ => ([] : List Img))
        2 0 3 (initState 1)
      = some (.condExit, ⟨3, 2, [1, 2], 0⟩) ∧
    (2 : Nat) ∈ (⟨3, 2, [1, 2], 0⟩ : LoopState).fetched := by
  constructor
  · decide
  · decide

/-- Claim C3 amended: a successfully fetched page with zero matched
items does not terminate the crawl by itself: it counts as an
all-skipped page, incrementing the old_pages counter, and the loop
continues; any termination it causes comes from the break-number
condition (so it does depend on that setting), through the same loop
exit as every other completion. -/
theorem c3_amended (fp : Nat → PyReturn) (pr : List Nat → List Img)
    (pe bn : Nat) (s s2 : LoopState)
    (hc : loopCond pe bn s = true)
    (hf : truthy (fp s.page) = true)
    (hempty : pr (bytesOf (fp s.page)) = []) :
    crawlStep fp pr pe bn s =
      .next ⟨s.page + 1, s.old_pages + 1, s.fetched ++ [s.page],
             s.dispatched⟩ ∧
    (s2.old_pages = s.old_pages + 1 → bn = s.old_pages + 1 →
      crawlStep fp pr pe bn s2 = .stop .condExit s2) := by
  constructor
  · have hsub : submitImgs (pr (bytesOf (fp s.page))) 0 = .ok 0 := by
      rw [hempty]; rfl
    rw [crawlStep_next fp pr pe bn s 0 hc hf hsub, hempty]
    simp
  · intro h1 h2
    apply crawlStep_condFalse
    rw [loopCond]
    simp [h1, h2]

/-- Witness for the amended claim C3: an empty page 1 increments the
counter and the loop goes on to page 2; with break-number 1 the next
iteration exits through the while condition. -/
theorem c3_amended_witness :
    crawlStep (fun _ => PyReturn.bytes [9]) (fun _ => ([] : List Img))
        0 1 (initState 1)
      = .next ⟨2, 1, [1], 0⟩ ∧
    crawlStep (fun _ => PyReturn.bytes [9]) (fun _ => ([] : List Img))
        0 1 ⟨2, 1, [1], 0⟩
      = .stop .condExit ⟨2, 1, [1], 0⟩ :=
  ⟨(c3_amended (fun _ => PyReturn.bytes [9]) (fun _ => ([] : List Img))
      0 1 (initState 1) ⟨2, 1, [1], 0⟩ (by decide) rfl rfl).1,
   (c3_amended (fun _ => PyReturn.bytes [9]) (fun _ => ([] : List Img))
      0 1 (initState 1) ⟨2, 1, [1], 0⟩ (by decide) rfl rfl).2 rfl rfl⟩

/-- Claim C4 counterexample: a crawl whose first page fetch fails ends
with the fetch-failure break, yet the final report is identical to the
report of a normal loop exit: the same unconditional completion
message, not a distinct error report. -/
theorem c4_counterexample :
    crawlRun (fun _ => PyReturn.pyFalse) (fun _ => ([] : List Img))
        0 0 1 (initState 1)
      = some (.fetchFail, ⟨1, 0, [1], 0⟩) ∧
    finalReport .fetchFail = finalReport .condExit ∧
    finalReport .fetchFail = some "✅ Downloading completed!" := by
  refine ⟨by decide, rfl, rfl⟩

/-- Claim C4 amended: a failure to fetch a gallery index page
terminates the crawl right away, but the terminal state is reported
with the very same completion message as a normal loop exit; the two
are not distinguished. -/
theorem c4_amended (fp : Nat → PyReturn) (pr : List Nat → List Img)
    (pe bn fuel : Nat) (s : LoopState)
    (hfuel : 1 ≤ fuel)
    (hc : loopCond pe bn s = true)
    (hf : truthy (fp s.page) = false) :
    crawlRun fp pr pe bn fuel s =
      some (.fetchFail,
        ⟨s.page, s.old_pages, s.fetched ++ [s.page], s.dispatched⟩) ∧
    finalReport .fetchFail = finalReport .condExit := by
  constructor
  · obtain ⟨f, rfl⟩ : ∃ f, fuel = f + 1 := ⟨fuel - 1, by omega⟩
    simp only [crawlRun, crawlStep_fetchFail fp pr pe bn s hc hf]
  · rfl

/-- Witness for the amended claim C4. -/
theorem c4_amended_witness :
    crawlRun (fun _ => PyReturn.pyFalse) (fun _ => ([] : List Img))
        0 0 1 (initState 1)
      = some (.fetchFail, ⟨1, 0, [1], 0⟩) ∧
    finalReport .fetchFail = finalReport .condExit :=
  c4_amended (fun _ => PyReturn.pyFalse) (fun _ => ([] : List Img))
    0 0 1 (initState 1) (by decide) (by decide) rfl

/-- Claim C5 counterexample: the second of three items on page 1 has a
malformed date string; instead of resolving to a per-item error while
the rest of the page proceeds, the whole crawl aborts with an uncaught
exception after only the first item was dispatched, and no completion
is reported. -/
theorem c5_counterexample :
    crawlRun (fun _ => PyReturn.bytes [1])
        (fun _ => [⟨"01-01-2020", false⟩, ⟨"oops", false⟩,
                   ⟨"02-01-2020", false⟩])
        0 0 5 (initState 1)
      = some (.dateCrash, ⟨1, 0, [1], 1⟩) ∧
    finalReport .dateCrash = none ∧
    (⟨1, 0, [1], 1⟩ : LoopState).dispatched ≠ 3 := by
  refine ⟨by decide, rfl, by decide⟩

/-- Claim C5 amended: a malformed date string on an item raises an
uncaught error that aborts the entire crawl: the items before it on the
page are dispatched, the malformed item and every later item are not,
and no completion is reported. -/
theorem c5_amended (fp : Nat → PyReturn) (pr : List Nat → List Img)
    (pe bn : Nat) (s : LoopState) (pre post : List Img) (bad : Img)
    (hc : loopCond pe bn s = true)
    (hf : truthy (fp s.page) = true)
    (hitems : pr (bytesOf (fp s.page)) = pre ++ bad :: post)
    (hpre : datesOk pre = true)
    (hbad : strptimeDMY bad.alt = none) :
    crawlStep fp pr pe bn s =
      .stop .dateCrash
        ⟨s.page, s.old_pages, s.fetched ++ [s.page],
         s.dispatched + pre.length⟩ ∧
    finalReport .dateCrash = none := by
  constructor
  · have hsub : submitImgs (pr (bytesOf (fp s.page))) 0
        = .error pre.length := by
      rw [hitems]
      simpa using submitImgs_error pre bad post 0 hpre hbad
    exact crawlStep_crash fp pr pe bn s pre.length hc hf hsub
  · rfl

/-- Witness for the amended claim C5: one good item before an item
whose date names the 30th of February (a calendar-invalid date on
which strptime raises); the crawl aborts with exactly one item
dispatched. -/
theorem c5_amended_witness :
    crawlStep (fun _ => PyReturn.bytes [1])
        (fun _ => [⟨"01-01-2020", true⟩, ⟨"30-02-2020", false⟩])
        0 0 (initState 1)
      = .stop .dateCrash ⟨1, 0, [1], 1⟩ ∧
    finalReport .dateCrash = none :=
  c5_amended (fun _ => PyReturn.bytes [1])
    (fun _ => [⟨"01-01-2020", true⟩, ⟨"30-02-2020", false⟩])
    0 0 (initState 1) [⟨"01-01-2020", true⟩] [] ⟨"30-02-2020", false⟩
    (by decide) rfl rfl (by decide) (by decide)

/-- With a bounded page_end, to pass the while condition the current
page must be within the bound. -/
theorem loopCond_true_page_le (pe bn : Nat) (s : LoopState) (hpe : pe ≠ 0)
    (hc : loopCond pe bn s = true) : s.page ≤ pe := by
  rw [loopCond, Bool.and_eq_true, Bool.or_eq_true, Bool.or_eq_true] at hc
  rcases hc.1 with h | h
  · exact of_decide_eq_true h
  · exact absurd (of_decide_eq_true h) hpe

/-- Invariant of the crawl loop with a bounded page_end: every page in
the fetch trace was already there at the start or is within the
bound. -/
theorem crawlRun_fetched_le (fp : Nat → PyReturn) (pr : List Nat → List Img)
    (pe bn : Nat) (hpe : pe ≠ 0) :
    ∀ (fuel : Nat) (s : LoopState) (c : StopCause) (s' : LoopState),
      crawlRun fp pr pe bn fuel s = some (c, s') →
      ∀ p ∈ s'.fetched, p ∈ s.fetched ∨ p ≤ pe := by
  intro fuel
  induction fuel with
  | zero => intro s c s' h; simp [crawlRun] at h
  | succ fuel ih =>
    intro s c s' h p hp
    by_cases hc : loopCond pe bn s = true
    · have hpage := loopCond_true_page_le pe bn s hpe hc
      by_cases hf : truthy (fp s.page) = true
      · rcases hsub : submitImgs (pr (bytesOf (fp s.page))) 0 with k | n
        · rw [crawlRun, crawlStep_crash fp pr pe bn s k hc hf hsub] at h
          simp only [Option.some.injEq, Prod.mk.injEq] at h
          obtain ⟨-, rfl⟩ := h
          simp only [List.mem_append, List.mem_singleton] at hp
          rcases hp with hp | hp
          · exact Or.inl hp
          · exact Or.inr (hp ▸ hpage)
        · rw [crawlRun, crawlStep_next fp pr pe bn s n hc hf hsub] at h
          rcases ih _ c s' h p hp with h' | h'
          · simp only [List.mem_append, List.mem_singleton] at h'
            rcases h' with h' | h'
            · exact Or.inl h'
            · exact Or.inr (h' ▸ hpage)
          · exact Or.inr h'
      · have hf' : truthy (fp s.page) = false := by simpa using hf
        rw [crawlRun, crawlStep_fetchFail fp pr pe bn s hc hf'] at h
        simp only [Option.some.injEq, Prod.mk.injEq] at h
        obtain ⟨-, rfl⟩ := h
        simp only [List.mem_append, List.mem_singleton] at hp
        rcases hp with hp | hp
        · exact Or.inl hp
        · exact Or.inr (hp ▸ hpage)
    · have hc' : loopCond pe bn s = false := by simpa using hc
      rw [crawlRun, crawlStep_condFalse fp pr pe bn s hc'] at h
      simp only [Option.some.injEq, Prod.mk.injEq] at h
      obtain ⟨-, rfl⟩ := h
      exact Or.inl hp

/-- Unfolding of List.range' by one element. -/
theorem range'_cons (a n : Nat) :
    List.range' a (n + 1) = a :: List.range' (a + 1) n := rfl

/-- With a bounded page_end, break-number disabled, every page fetch
truthy and every date parsing, the crawl loop runs page by page up to
and including page_end and then exits through the while condition,
having fetched exactly the pages from the current one to page_end. -/
theorem crawlRun_complete (fp : Nat → PyReturn) (pr : List Nat → List Img)
    (pe : Nat) (hpe : pe ≠ 0)
    (htr : ∀ p, truthy (fp p) = true)
    (hd : ∀ p, datesOk (pr (bytesOf (fp p))) = true) :
    ∀ (fuel : Nat) (s : LoopState), s.page ≤ pe + 1 →
      pe + 2 - s.page ≤ fuel →
      ∃ s', crawlRun fp pr pe 0 fuel s = some (.condExit, s') ∧
        s'.page = pe + 1 ∧
        s'.fetched = s.fetched ++ List.range' s.page (pe + 1 - s.page) := by
  intro fuel
  induction fuel with
  | zero => intro s h1 h2; omega
  | succ fuel ih =>
    intro s h1 h2
    by_cases he : s.page = pe + 1
    · have hc : loopCond pe 0 s = false := by
        rw [loopCond]
        have h3 : decide (s.page ≤ pe) = false := by
          rw [decide_eq_false_iff_not]; omega
        have h4 : decide (pe = 0) = false := by
          rw [decide_eq_false_iff_not]; exact hpe
        rw [h3, h4]
        rfl
      refine ⟨s, ?_, he, ?_⟩
      · rw [crawlRun, crawlStep_condFalse fp pr pe 0 s hc]
      · rw [he]
        have : pe + 1 - (pe + 1) = 0 := by omega
        rw [this]
        simp [List.range']
    · have hple : s.page ≤ pe := by omega
      have hc : loopCond pe 0 s = true := by
        rw [loopCond]
        have h3 : decide (s.page ≤ pe) = true := by
          rw [decide_eq_true_eq]; exact hple
        rw [h3]
        rfl
      have hsub := submitImgs_ok (pr (bytesOf (fp s.page))) 0 (hd s.page)
      rw [Nat.zero_add] at hsub
      obtain ⟨s', hrun, hpage', hfetch'⟩ :=
        ih ⟨s.page + 1,
            if ((pr (bytesOf (fp s.page))).filter (fun i => i.old)).length
                = (pr (bytesOf (fp s.page))).length
            then s.old_pages + 1 else s.old_pages,
            s.fetched ++ [s.page],
            s.dispatched + (pr (bytesOf (fp s.page))).length⟩
          (by simp only; omega) (by simp only; omega)
      refine ⟨s', ?_, hpage', ?_⟩
      · rw [crawlRun,
          crawlStep_next fp pr pe 0 s _ hc (htr s.page) hsub]
        exact hrun
      · rw [hfetch']
        simp only
        have h5 : pe + 1 - s.page = (pe - s.page) + 1 := by omega
        have h6 : pe + 1 - (s.page + 1) = pe - s.page := by omega
        rw [h5, h6, range'_cons, List.append_assoc, List.singleton_append]

/-- Claim C9: with a bounded page-end E, every page the crawl ever
fetches is at most E (page E + 1 is never fetched, whatever ends the
run); and when no other condition ends the crawl earlier (break-number
disabled, every fetch truthy, every date parsing, enough fuel), the
run exits through the while condition after dispatching exactly the
pages from the start page up to and including E. -/
theorem c9_page_end (fp : Nat → PyReturn) (pr : List Nat → List Img)
    (E bn start fuel : Nat) (hE : E ≠ 0) :
    (∀ c s', crawlRun fp pr E bn fuel (initState start) = some (c, s') →
      ∀ p ∈ s'.fetched, p ≤ E) ∧
    (bn = 0 → (∀ p, truthy (fp p) = true) →
      (∀ p, datesOk (pr (bytesOf (fp p))) = true) →
      1 ≤ start → start ≤ E → E + 2 - start ≤ fuel →
      (crawlRun fp pr E bn fuel (initState start)).map
          (fun r => (r.1, r.2.page, r.2.fetched))
        = some (.condExit, E + 1, List.range' start (E + 1 - start))) := by
  constructor
  · intro c s' h p hp
    rcases crawlRun_fetched_le fp pr E bn hE fuel (initState start)
        c s' h p hp with h' | h'
    · simp [initState] at h'
    · exact h'
  · intro hbn htr hd h1 h2 h3
    subst hbn
    obtain ⟨s', hrun, hpage, hfetch⟩ :=
      crawlRun_complete fp pr E hE htr hd fuel (initState start)
        (by simp only [initState]; omega) (by simp only [initState]; omega)
    rw [hrun]
    simp only [Option.map_some', Option.some.injEq, Prod.mk.injEq]
    refine ⟨trivial, hpage, ?_⟩
    simpa [initState] using hfetch

/-- Witness for claim C9: page-end 3 from page 1 with always-new empty
pages fetches exactly pages 1, 2, 3 and stops. -/
theorem c9_witness :
    (crawlRun (fun _ => PyReturn.bytes [0]) (fun _ => ([] : List Img))
        3 0 5 (initState 1)).map
        (fun r => (r.1, r.2.page, r.2.fetched))
      = some (.condExit, 3 + 1, List.range' 1 (3 + 1 - 1)) :=
  (c9_page_end (fun _ => PyReturn.bytes [0]) (fun _ => ([] : List Img))
      3 0 1 5 (by decide)).2
    rfl (fun p => rfl) (fun p => rfl) (by decide) (by decide) (by decide)

/-- Claim C6 counterexample: with the seed URL https://x/g, page-start
5 and page-end 3, the run does abort with exit code 1 before any
network request, but only after the domain directory was created and
the .gitignore marker file was written: the claim that no filesystem
state is created or modified before the abort is false. -/
theorem c6_counterexample :
    mainPrelude "git" "https://x/g" 5 3
      = ([.makedirs "x",
          .writeFile "x/.gitignore" "# Automatically created by honey-dl\n*"],
         .exitError 1) ∧
    Effect.makedirs "x" ∈ (mainPrelude "git" "https://x/g" 5 3).1 := by
  constructor
  · decide
  · decide

/-- Claim C6 amended: when the resolved page range is invalid (bounded
page-end below the resolved page-start), the run aborts with exit code
1 and no network request is ever issued, but the domain directory and
the .gitignore marker file are created and written before the check. -/
theorem c6_amended (navigator url : String) (ps pe ps' : Nat)
    (url' : String)
    (hres : resolveNavigator navigator url ps = some (ps', url'))
    (h0 : pe ≠ 0) (hlt : pe < ps') :
    mainPrelude navigator url ps pe =
      ([.makedirs (urlparseNetloc url),
        .writeFile (urlparseNetloc url ++ "/.gitignore")
          "# Automatically created by honey-dl\n*"],
       .exitError 1) ∧
    ∀ u, Effect.httpGet u ∉ (mainPrelude navigator url ps pe).1 := by
  have hmain : mainPrelude navigator url ps pe =
      ([.makedirs (urlparseNetloc url),
        .writeFile (urlparseNetloc url ++ "/.gitignore")
          "# Automatically created by honey-dl\n*"],
       .exitError 1) := by
    simp only [mainPrelude, hres]
    rw [if_pos ⟨h0, hlt⟩]
  refine ⟨hmain, ?_⟩
  intro u
  rw [hmain]
  simp

/-- Witness for the amended claim C6. -/
theorem c6_amended_witness :
    mainPrelude "git" "https://x/g" 5 3 =
      ([.makedirs (urlparseNetloc "https://x/g"),
        .writeFile (urlparseNetloc "https://x/g" ++ "/.gitignore")
          "# Automatically created by honey-dl\n*"],
       .exitError 1) ∧
    Effect.httpGet "https://x/g" ∉ (mainPrelude "git" "https://x/g" 5 3).1 :=
  ⟨(c6_amended "git" "https://x/g" 5 3 5 "https://x/g"
      (by decide) (by decide) (by decide)).1,
   (c6_amended "git" "https://x/g" 5 3 5 "https://x/g"
      (by decide) (by decide) (by decide)).2 "https://x/g"⟩

/-- Claim C7: for the seed URL https://x/g?id=1&git=7 with navigator
git, start resolution sets the initial page number to 7 (whatever
page-start was configured) and strips the git=7 term together with its
preceding ampersand from the seed URL; re-appending the navigation
parameter for page 7 then reproduces the original URL rather than
duplicating the parameter. -/
theorem c7_navigator_extraction (page_start : Nat) :
    resolveNavigator "git" "https://x/g?id=1&git=7" page_start
      = some (7, "https://x/g?id=1") ∧
    navigatedUrl "https://x/g?id=1" "git" 7 = "https://x/g?id=1&git=7" := by
  exact ⟨rfl, rfl⟩

/-- Witness for claim C7: instantiated at configured page-start 0. -/
theorem c7_witness :
    resolveNavigator "git" "https://x/g?id=1&git=7" 0
      = some (7, "https://x/g?id=1") ∧
    navigatedUrl "https://x/g?id=1" "git" 7 = "https://x/g?id=1&git=7" :=
  c7_navigator_extraction 0
